import Mathlib

/- Shallow embedding of the WWT core-catalogs tools: cattool.py, pipeline.py and
corepipe/base.py. Python dicts (which preserve insertion order) are modelled as
association lists; dict assignment replaces the first binding in place or, for a
fresh key, appends a new binding at the end. Fallible dict indexing (Python
KeyError) is modelled with Option/Except results. -/

def dictGet {α : Type} (d : List (String × α)) (k : String) : Option α :=
  match d with
  | [] => none
  | (k1, v) :: rest => if k1 = k then some v else dictGet rest k

def dictSet {α : Type} (d : List (String × α)) (k : String) (v : α) : List (String × α) :=
  match d with
  | [] => [(k, v)]
  | (k1, v1) :: rest => if k1 = k then (k1, v) :: rest else (k1, v1) :: dictSet rest k v

/- Python's by_key.setdefault(key, []).append(x) idiom. -/
def dictAppend {α : Type} (d : List (String × List α)) (k : String) (v : α) :
    List (String × List α) :=
  match d with
  | [] => [(k, [v])]
  | (k1, vs) :: rest =>
    if k1 = k then (k1, vs ++ [v]) :: rest else (k1, vs) :: dictAppend rest k v

def groupByKey {α : Type} (key : α → String) (l : List α) : List (String × List α) :=
  l.foldl (fun d x => dictAppend d (key x) x) []

/- Python's sorted() is a stable sort; we model it with a stable insertion sort
parameterized by a boolean less-or-equal test. -/
def insertLe {α : Type} (le : α → α → Bool) (x : α) : List α → List α
  | [] => [x]
  | y :: ys => if le y x then y :: insertLe le x ys else x :: y :: ys

def sortLe {α : Type} (le : α → α → Bool) : List α → List α
  | [] => []
  | x :: xs => insertLe le x (sortLe le xs)

/- The fields of a wwt_data_formats ImageSet that the algorithms under test
actually read. All other imageset metadata (credits, thumbnail, projection
parameters, the xmeta bag, ...) is collapsed into the `payload` field, which the
algorithms carry around untouched; it keeps distinct records distinguishable.
An absent or empty alt_url (falsy in Python) is modelled as none. -/
structure ImageSet where
  url : String
  altUrl : Option String
  dataSetType : String
  referenceFrame : Option String
  bandPass : Option String
  payload : String
deriving Repr, DecidableEq

/- ImagesetDatabase from cattool.py: by_url maps a primary url to its record,
by_alturl maps a legacy alias url to the primary url that owns it. -/
structure ImagesetDatabase where
  byUrl : List (String × ImageSet)
  byAlturl : List (String × String)
deriving Repr, DecidableEq

/- ImagesetDatabase.add_imageset (cattool.py lines 100-122). The result is the
updated database and the canonical record that the caller should use; none
models an uncaught KeyError (by_alturl pointing at a url missing from by_url).
The warn() calls of the source only write to stderr and are not modelled. -/
def ImagesetDatabase.add_imageset (db : ImagesetDatabase) (imgset : ImageSet) :
    Option (ImagesetDatabase × ImageSet) :=
  match dictGet db.byUrl imgset.url with
  | some existing =>
    -- warn: dropping duplicated imageset; return self.by_url[imgset.url]
    some (db, existing)
  | none =>
    match dictGet db.byAlturl imgset.url with
    | some mainUrl =>
      -- warn: tried to add altUrl imageset; return self.by_url[main_url]
      (dictGet db.byUrl mainUrl).map (fun m => (db, m))
    | none =>
      let db1 :=
        match imgset.altUrl with
        | some alt =>
          match dictGet db.byAlturl alt with
          | some _ =>
            -- warn: duplicated AltUrl; the alias index is left unchanged
            db
          | none => { db with byAlturl := dictSet db.byAlturl alt imgset.url }
        | none => db
      some ({ db1 with byUrl := dictSet db1.byUrl imgset.url imgset }, imgset)

def ImagesetDatabase.get_by_url (db : ImagesetDatabase) (url : String) : Option ImageSet :=
  dictGet db.byUrl url

/- Shard key of ImagesetDatabase.rewrite: dataset type, then the reference
frame when present and not "Sky", then the band pass when present, joined with
underscores and lowercased. -/
def imagesetShardKey (s : ImageSet) : String :=
  let k := [s.dataSetType]
  let k :=
    match s.referenceFrame with
    | some rf => if rf ≠ "Sky" then k ++ [rf] else k
    | none => k
  let k :=
    match s.bandPass with
    | some bp => k ++ [bp]
    | none => k
  (String.intercalate "_" k).toLower

def imagesetUrlLe (a b : ImageSet) : Bool := !(decide (b.url < a.url))

/- ImagesetDatabase.rewrite (cattool.py lines 127-153). One shard file per key,
named key plus ".xml", holding the group's records sorted by url. The XML
serialization (Folder.to_xml plus prettify) is a pure function of that sorted
record list, so a file's bytes are modelled by the list itself. The rewrite
does not modify the in-memory by_url map, which the second component records. -/
def ImagesetDatabase.rewriteFiles (db : ImagesetDatabase) : List (String × List ImageSet) :=
  (groupByKey imagesetShardKey (db.byUrl.map Prod.snd)).map
    (fun kv => (kv.1 ++ ".xml", sortLe imagesetUrlLe kv.2))

def ImagesetDatabase.rewrite (db : ImagesetDatabase) :
    List (String × List ImageSet) × ImagesetDatabase :=
  (db.rewriteFiles, db)

/- The fields of a persisted place record (the info dicts of PlaceDatabase)
that rewrite and reconst_by_id read. Coordinates are modelled as rationals;
everything else the algorithms do not inspect is collapsed into `payload`. -/
structure PlaceInfo where
  uuid : String
  dataSetType : String
  name : String
  raHr : Option Rat
  decDeg : Option Rat
  latitude : Option Rat
  longitude : Option Rat
  constellation : Option String
  imageSetUrl : Option String
  foregroundImageSetUrl : Option String
  backgroundImageSetUrl : Option String
  payload : String
deriving Repr, DecidableEq

/- PlaceDatabase from cattool.py: by_uuid in insertion order; each info dict
carries its own uuid. -/
structure PlaceDatabase where
  byUuid : List PlaceInfo
deriving Repr, DecidableEq

/- Zero-padded integer formatting, as in the Python format specs 02d and 03d
used for the ra/lon shard-key pieces. -/
def padZeros (width : Nat) (n : Int) : String :=
  let digits := toString n.natAbs
  let sign := if n < 0 then "-" else ""
  let pad := width - (digits.length + sign.length)
  sign ++ String.mk (List.replicate pad '0') ++ digits

/- Shard key of PlaceDatabase.rewrite: dataset type, then an ra-hour bucket
when ra_hr is present, then a longitude decade when longitude is present,
joined with underscores and lowercased. Python's % and // are euclidean mod
(for the positive modulus 24) and floor division. -/
def placeShardKey (info : PlaceInfo) : String :=
  let k := [info.dataSetType]
  let k :=
    match info.raHr with
    | some ra => k ++ ["ra" ++ padZeros 2 (ra.floor % 24)]
    | none => k
  let k :=
    match info.longitude with
    | some lon => k ++ ["lon" ++ padZeros 3 (Int.fdiv lon.floor 10 * 10)]
    | none => k
  (String.intercalate "_" k).toLower

/- While computing the shard key, the source also refreshes the cached
constellation of any record that has ra_hr, from Place.set_ra_dec of the
external wwt_data_formats library; that library call is a pure function of
(ra, dec), modelled by the constOf parameter. The source indexes the dec_deg
key unconditionally at this point (a KeyError when it is absent), so the
theorems below restrict to states where ra_hr and dec_deg occur together. -/
def updateConstellation (constOf : Rat → Rat → String) (info : PlaceInfo) : PlaceInfo :=
  match info.raHr with
  | some ra => { info with constellation := some (constOf ra (info.decDeg.getD 0)) }
  | none => info

/- Elements of the within-shard sort key of PlaceDatabase.rewrite. The Python
key is a tuple mixing one-character strings (k += url expands the string), the
full name string, and floats. Comparing a string with a float would raise a
TypeError in Python; the order between the two constructors here is an
arbitrary fixed totalization of that undefined comparison, which does not
affect the determinism property being verified. -/
inductive SKElem where
  | s (v : String)
  | q (v : Rat)
deriving Repr, DecidableEq

def strChars (u : String) : List SKElem :=
  u.data.map (fun c => SKElem.s (String.mk [c]))

/- The sortkey closure of PlaceDatabase.rewrite (cattool.py lines 393-420).
As with updateConstellation, ra_hr is indexed unconditionally when dec_deg is
present; the well-formedness hypothesis of the theorems covers that. -/
def placeSortKey (info : PlaceInfo) : List SKElem :=
  let k : List SKElem := []
  let k :=
    match info.foregroundImageSetUrl with
    | some u => k ++ strChars u
    | none => k
  let k :=
    match info.imageSetUrl with
    | some u => k ++ strChars u
    | none => k
  let k :=
    match info.backgroundImageSetUrl with
    | some u => k ++ strChars u
    | none => k
  let k :=
    match info.decDeg with
    | some dec => k ++ [SKElem.q dec, SKElem.q (info.raHr.getD 0)]
    | none => k
  let k :=
    match info.latitude with
    | some lat =>
      let k := k ++ [SKElem.q lat]
      match info.longitude with
      | some lon => k ++ [SKElem.q lon]
      | none => k
    | none => k
  k ++ [SKElem.s info.name]

def ratCmp (a b : Rat) : Ordering :=
  if a < b then Ordering.lt else if b < a then Ordering.gt else Ordering.eq

def skElemCmp : SKElem → SKElem → Ordering
  | SKElem.s a, SKElem.s b => compare a b
  | SKElem.q a, SKElem.q b => ratCmp a b
  | SKElem.q _, SKElem.s _ => Ordering.lt
  | SKElem.s _, SKElem.q _ => Ordering.gt

def skListCmp : List SKElem → List SKElem → Ordering
  | [], [] => Ordering.eq
  | [], _ :: _ => Ordering.lt
  | _ :: _, [] => Ordering.gt
  | a :: as, b :: bs =>
    match skElemCmp a b with
    | Ordering.eq => skListCmp as bs
    | o => o

def placeLe (a b : PlaceInfo) : Bool :=
  match skListCmp (placeSortKey a) (placeSortKey b) with
  | Ordering.gt => false
  | _ => true

/- PlaceDatabase.rewrite (cattool.py lines 369-432). The source interleaves the
constellation refresh with the grouping in one pass over by_uuid.values(); the
two-phase presentation here is equivalent because the shard key does not read
the constellation field. One shard file per key, named key plus ".yml", holding
the group's infos sorted by the sortkey; write_multi_yaml is a pure function of
that sorted list, so a file's bytes are modelled by the list itself. The second
component is the in-memory state after the run (with refreshed constellations). -/
def PlaceDatabase.rewrite (constOf : Rat → Rat → String) (pdb : PlaceDatabase) :
    List (String × List PlaceInfo) × PlaceDatabase :=
  let s1 := pdb.byUuid.map (updateConstellation constOf)
  let files :=
    (groupByKey placeShardKey s1).map (fun kv => (kv.1 ++ ".yml", sortLe placeLe kv.2))
  (files, { byUuid := s1 })

/- A parsed prep-ledger item, as produced by the record-file parser of
cattool.py: a kind marker and an ordered field map. -/
abbrev PrepItem := String × List (String × String)

/- One attempt of the operation wrapped by the retry helper of cattool.py: it
can return a value, raise requests ConnectionError, or raise any other
exception. -/
inductive AttemptResult (α : Type) where
  | success (a : α)
  | connError
  | otherError
deriving Repr, DecidableEq

/- How a call of the retry helper ends: `returned v` is a normal return with
the Python value v (none being Python None), `raised` is a propagating
exception. -/
inductive RetryOutcome (α : Type) where
  | returned (a : Option α)
  | raised
deriving Repr, DecidableEq

/- The loop body of the retry helper: each ConnectionError is swallowed and
followed by one time.sleep(0.5), counted in the second component; any other
exception propagates immediately. When the fuel runs out the for loop falls
through and the function returns None. -/
def retryGo {α : Type} (op : Nat → AttemptResult α) (fuel idx sleeps : Nat) :
    RetryOutcome α × Nat :=
  match fuel with
  | 0 => (RetryOutcome.returned none, sleeps)
  | Nat.succ f =>
    match op idx with
    | AttemptResult.success a => (RetryOutcome.returned (some a), sleeps)
    | AttemptResult.connError => retryGo op f (idx + 1) (sleeps + 1)
    | AttemptResult.otherError => (RetryOutcome.raised, sleeps)

/- The retry wrapper of cattool.py (lines 519-531): for _attempt in range(5),
with op giving the outcome of each attempt in order. -/
def retry5 {α : Type} (op : Nat → AttemptResult α) : RetryOutcome α × Nat :=
  retryGo op 5 0 0

/- Result of one handle's pass of ConstellationsPrepDatabase.register:
newItems is the list assigned back to by_handle[handle]; imgids is the
imgids_by_url map after the pass; skippedScenes collects the place uuids of the
ready scene items that were warned about because no remote image ID could be
resolved; registeredCount counts successful registrations (the n counter). -/
structure RegisterResult where
  newItems : List PrepItem
  imgids : List (String × String)
  skippedScenes : List String
  registeredCount : Nat
deriving Repr, DecidableEq

/- The per-item loop of ConstellationsPrepDatabase.register (cattool.py lines
830-865) for one handle. The remote calls (the _register_image and
_register_scene helpers, including the idb record lookup, the place
reconstruction and the status stamping they entail) are abstracted as the
regImage and regScene parameters returning the new remote ID; this model covers
runs in which those calls succeed. -/
def registerItems (regImage regScene : PrepItem → String) :
    List PrepItem → List (String × String) → RegisterResult
  | [], imgids =>
    { newItems := [], imgids := imgids, skippedScenes := [], registeredCount := 0 }
  | it :: rest, imgids =>
    if (dictGet it.2 "wip").isSome then
      -- not yet marked as ready: preserve it and move on
      let r := registerItems regImage regScene rest imgids
      { r with newItems := it :: r.newItems }
    else if it.1 = "image" then
      let id := regImage it
      let imgids1 := dictSet imgids ((dictGet it.2 "url").getD "") id
      let r := registerItems regImage regScene rest imgids1
      { r with registeredCount := r.registeredCount + 1 }
    else if it.1 = "scene" then
      match dictGet imgids ((dictGet it.2 "image_url").getD "") with
      | none =>
        -- warn: cannot determine the CXID for the imageset; continue, which
        -- also drops the item from new_items
        let r := registerItems regImage regScene rest imgids
        { r with skippedScenes := ((dictGet it.2 "place_uuid").getD "") :: r.skippedScenes }
      | some _ =>
        let r := registerItems regImage regScene rest imgids
        { r with registeredCount := r.registeredCount + 1 }
    else
      -- warn: unexpected prep item kind; preserved
      let r := registerItems regImage regScene rest imgids
      { r with newItems := it :: r.newItems }

/- The reconstructed Place of PlaceDatabase.reconst_by_id, keeping the resolved
imageset references and the fields that can influence the lookups. -/
structure PlaceOut where
  backgroundImageSet : Option ImageSet
  foregroundImageSet : Option ImageSet
  imageSet : Option ImageSet
  dataSetType : String
  name : String
deriving Repr, DecidableEq

/- How PlaceDatabase.reconst_by_id can fail: placeNotFound models the KeyError
of by_uuid[pid]; keyError models a plain KeyError escaping from
idb.get_by_url(u); fgNotFound models the wrapped exception whose message names
both the foreground URL and the offending place. -/
inductive ReconstErr where
  | placeNotFound (pid : String)
  | keyError (url : String)
  | fgNotFound (url : String) (pid : String)
deriving Repr, DecidableEq

/- PlaceDatabase.reconst_by_id (cattool.py lines 259-367). The three imageset
lookups happen in the source's field order: background_image_set_url first,
then foreground_image_set_url (the only one wrapped in try/except KeyError,
re-raised with a message naming the URL and the place), then image_set_url. -/
def resolveRef (idb : ImagesetDatabase) (u : Option String) (mkErr : String → ReconstErr) :
    Except ReconstErr (Option ImageSet) :=
  match u with
  | none => Except.ok none
  | some url =>
    match dictGet idb.byUrl url with
    | some s => Except.ok (some s)
    | none => Except.error (mkErr url)

def PlaceDatabase.reconst_by_id (pdb : PlaceDatabase) (idb : ImagesetDatabase)
    (pid : String) : Except ReconstErr PlaceOut :=
  match pdb.byUuid.find? (fun i => i.uuid == pid) with
  | none => Except.error (ReconstErr.placeNotFound pid)
  | some info =>
    match resolveRef idb info.backgroundImageSetUrl ReconstErr.keyError with
    | Except.error e => Except.error e
    | Except.ok bg =>
      match resolveRef idb info.foregroundImageSetUrl (fun u => ReconstErr.fgNotFound u pid) with
      | Except.error e => Except.error e
      | Except.ok fg =>
        match resolveRef idb info.imageSetUrl ReconstErr.keyError with
        | Except.error e => Except.error e
        | Except.ok img =>
          Except.ok
            { backgroundImageSet := bg, foregroundImageSet := fg, imageSet := img,
              dataSetType := info.dataSetType, name := info.name }

/- The filename reordering of PipelineManager.upload (corepipe/base.py lines
589-611): if index.wtml occurs in the directory listing, swap it with the last
element, so that the index document is pushed to storage last; the for loop
below that code then uploads the resulting list front to back. -/
def uploadFilenames (filenames : List String) : List String :=
  if "index.wtml" ∈ filenames then
    let indexIndex := filenames.indexOf "index.wtml"
    let temp := filenames.getD (filenames.length - 1) ""
    (filenames.set (filenames.length - 1) "index.wtml").set indexIndex temp
  else filenames

/- The per-item loop of PipelineManager.upload (corepipe/base.py lines 539-662)
over the parsed prep items. The whole body of one non-wip item (index
rewriting, data upload, remote image and scene registration, local catalog
insertion) is abstracted as the outcome parameter: true means the body ran to
its last statement, remove_ids.add(uniq_id); false means an exception was
raised somewhere in the body, which aborts the loop. A non-wip item whose kind
is not corepipe_image (assert) or that lacks a corepipe_id field (KeyError)
also aborts. Returns the remove_ids accumulator in completion order and
whether the loop was aborted by an exception. -/
def uploadLoop (outcome : PrepItem → Bool) :
    List PrepItem → List String → List String × Bool
  | [], completed => (completed, false)
  | it :: rest, completed =>
    if (dictGet it.2 "wip").isSome then uploadLoop outcome rest completed
    else if it.1 = "corepipe_image" then
      match dictGet it.2 "corepipe_id" with
      | none => (completed, true)
      | some cid =>
        if outcome it then uploadLoop outcome rest (completed ++ [cid])
        else (completed, true)
    else (completed, true)

/- The finally block's rebuild of the prep ledger: every parsed item whose
corepipe_id is in remove_ids is dropped, the rest are kept in their original
order. Reading fields of corepipe_id here can itself raise a KeyError (an item
without that field), in which case the ledger file is never rewritten; that is
the none result. -/
def uploadFinalPrep : List PrepItem → List String → Option (List PrepItem)
  | [], _ => some []
  | it :: rest, completed =>
    match dictGet it.2 "corepipe_id" with
    | none => none
    | some cid =>
      (uploadFinalPrep rest completed).map
        (fun tail => if completed.contains cid then tail else it :: tail)

/- The observable outcome of one PipelineManager.upload run. dbRewritten
records that the finally block invoked ImagesetDatabase.rewrite and
PlaceDatabase.rewrite (and flushed the catfile prepends); it is true on every
exit path because those calls are the first statements of the finally block,
before the ledger rebuild. newPrep is the ledger content written at the end of
the finally block (none when the rebuild itself raised). -/
structure UploadResult where
  newPrep : Option (List PrepItem)
  dbRewritten : Bool
  completed : List String
  aborted : Bool
deriving Repr, DecidableEq

def PipelineManager.upload (outcome : PrepItem → Bool) (items : List PrepItem) :
    UploadResult :=
  let lr := uploadLoop outcome items []
  { newPrep := uploadFinalPrep items lr.1,
    dbRewritten := true,
    completed := lr.1,
    aborted := lr.2 }

/- The pipeline configuration keys that PipelineManager.process_todos reads. -/
structure PipeConfig where
  defaultConstellationsHandle : String
  defaultPrependCatfile : String
  defaultCopyright : String
  defaultLicenseId : String
  astropixPubId : Option String
deriving Repr, DecidableEq

/- The toasty builder outputs which process_todos copies into the prep record
after processing one item. -/
structure BuilderOut where
  creditsUrl : String
  description : String
  credits : String
deriving Repr, DecidableEq

/- The prep record built for one processed cache_todo entry
(corepipe/base.py lines 479-495). -/
def mkPrepFields (cfg : PipeConfig) (astropixImgIds : List String) (b : BuilderOut)
    (uid : String) : List (String × String) :=
  [("corepipe_id", uid),
   ("cx_handle", cfg.defaultConstellationsHandle),
   ("prepend_catfile", cfg.defaultPrependCatfile),
   ("copyright", cfg.defaultCopyright),
   ("license_id", cfg.defaultLicenseId)]
  ++ (match cfg.astropixPubId with
      | some pubid =>
        if astropixImgIds.contains uid then [("astropix_id", pubid ++ "|" ++ uid)]
        else []
      | none => [])
  ++ [("outgoing_url", b.creditsUrl),
      ("text", b.description),
      ("credits", b.credits),
      ("wip", "yes")]

/- The stage directories and the prep ledger of one working directory, as far
as process_todos touches them. -/
structure WorkDir where
  cacheTodo : List String
  cacheDone : List String
  processedDirs : List String
  prepTxt : List PrepItem
deriving Repr, DecidableEq

/- PipelineManager.process_todos (corepipe/base.py lines 416-499) for a run in
which every item processes successfully. prep_items starts as the empty list
(the source's TODO comment notes that the existing prep file is not loaded);
each cache_todo entry is processed, renamed into cache_done, and contributes
one corepipe_image record; finally prep.txt is opened in write mode and
receives exactly those records, discarding whatever it held before. -/
def PipelineManager.process_todos (cfg : PipeConfig) (astropixImgIds : List String)
    (builderFor : String → BuilderOut) (wd : WorkDir) : WorkDir :=
  let newPrep : List PrepItem :=
    wd.cacheTodo.map
      (fun uid => ("corepipe_image", mkPrepFields cfg astropixImgIds (builderFor uid) uid))
  { cacheTodo := [],
    cacheDone := wd.cacheDone ++ wd.cacheTodo,
    processedDirs := wd.processedDirs ++ wd.cacheTodo,
    prepTxt := newPrep }

/- How one candidate's save() call ends during refresh. -/
inductive SaveOutcome where
  | ok
  | notActionable
deriving Repr, DecidableEq

/- The errors that can escape the per-candidate block of refresh_impl. -/
inductive IoError where
  | fileNotFound (path : String)
deriving Repr, DecidableEq

/- The per-candidate save handling of refresh_impl (pipeline.py lines 354-366),
over a filesystem modelled as the list of existing file paths. On
NotActionableError the candidate file (created by the surrounding with-open) is
removed, and then the source evaluates
open(os.path.join(rej_dir, uniq_id, "wb")): the string "wb" lands in the PATH
and the file is opened with the default mode "r", so unless rejects/<id>/wb
already exists this raises FileNotFoundError, which the except clause around
save() does not catch. Returns the new filesystem plus the n_saved and
n_rejected increments. -/
def handleCandidate (fs : List String) (candDir rejDir uid : String)
    (save : SaveOutcome) : Except IoError (List String × Nat × Nat) :=
  let candPath := candDir ++ "/" ++ uid
  match save with
  | SaveOutcome.ok => Except.ok (fs ++ [candPath], 1, 0)
  | SaveOutcome.notActionable =>
    let fs1 := fs.filter (fun p => !(p == candPath))
    let rejPath := rejDir ++ "/" ++ uid ++ "/" ++ "wb"
    if fs1.contains rejPath then Except.ok (fs1, 0, 1)
    else Except.error (IoError.fileNotFound rejPath)

/- The candidate loop of refresh_impl, restricted to candidates that reach the
save step (the seen/uploaded/skip-flag short-circuits are not modelled). An
error escaping handleCandidate aborts the whole scan. -/
def refreshCandidates (saveOf : String → SaveOutcome) (candDir rejDir : String) :
    List String → List String → Except IoError (List String × Nat × Nat)
  | [], fs => Except.ok (fs, 0, 0)
  | uid :: rest, fs =>
    match handleCandidate fs candDir rejDir uid (saveOf uid) with
    | Except.error e => Except.error e
    | Except.ok (fs1, s, r) =>
      (refreshCandidates saveOf candDir rejDir rest fs1).map
        (fun t => (t.1, t.2.1 + s, t.2.2 + r))

/- Theorems. -/

/-- Claim C7 (confirmed): for every database state and every record whose url
is already present as a primary key, add_imageset returns the previously
stored record and leaves the database (in particular the url-to-record map)
unchanged, so repeated insertion of the same url keeps exactly one record. -/
theorem c7_add_imageset_dedup (db : ImagesetDatabase) (imgset s : ImageSet)
    (h : dictGet db.byUrl imgset.url = some s) :
    ImagesetDatabase.add_imageset db imgset = some (db, s) := by
  unfold ImagesetDatabase.add_imageset
  rw [h]

theorem c7_add_imageset_dedup_witness :
    ImagesetDatabase.add_imageset
      { byUrl := [("u1", ⟨"u1", none, "Sky", none, some "Visible", "a"⟩)], byAlturl := [] }
      ⟨"u1", none, "Sky", none, some "Visible", "b"⟩ =
    some ({ byUrl := [("u1", ⟨"u1", none, "Sky", none, some "Visible", "a"⟩)], byAlturl := [] },
          ⟨"u1", none, "Sky", none, some "Visible", "a"⟩) :=
  c7_add_imageset_dedup _ _ _ (by decide)

/-- Claim C4 is false on the code: when the new record's alt_url is already
claimed as the alt_url of a different primary url, the alias index keeps the
OLD mapping. Concretely, with record x owning alias y, inserting record z that
also declares alt_url y leaves the alias index mapping y to x, not to z. -/
theorem c4_alias_conflict_counterexample :
    ImagesetDatabase.add_imageset
      { byUrl := [("x", ⟨"x", some "y", "Sky", none, none, "a"⟩)], byAlturl := [("y", "x")] }
      ⟨"z", some "y", "Sky", none, none, "b"⟩ =
    some ({ byUrl := [("x", ⟨"x", some "y", "Sky", none, none, "a"⟩),
                      ("z", ⟨"z", some "y", "Sky", none, none, "b"⟩)],
            byAlturl := [("y", "x")] },
          ⟨"z", some "y", "Sky", none, none, "b"⟩) ∧
    dictGet [("y", "x")] "y" ≠ some "z" := by
  constructor
  · decide
  · decide

/-- Claim C4 (corrected): when a new record whose primary url is not yet
present declares an alt_url already claimed as the alt_url of a different
primary url, add_imageset logs the conflict and keeps the FIRST-SEEN mapping:
the record is inserted under its own url, but the alias index is left
unchanged, so the alt_url still resolves to the original primary url. -/
theorem c4_alias_conflict_amended (db : ImagesetDatabase) (imgset : ImageSet)
    (a old : String)
    (h1 : dictGet db.byUrl imgset.url = none)
    (h2 : dictGet db.byAlturl imgset.url = none)
    (h3 : imgset.altUrl = some a)
    (h4 : dictGet db.byAlturl a = some old) :
    ImagesetDatabase.add_imageset db imgset =
      some ({ byUrl := dictSet db.byUrl imgset.url imgset, byAlturl := db.byAlturl }, imgset) := by
  unfold ImagesetDatabase.add_imageset
  rw [h1, h2, h3]
  simp [h4]

theorem c4_alias_conflict_amended_witness :
    ImagesetDatabase.add_imageset
      { byUrl := [("x", ⟨"x", some "y", "Sky", none, none, "a"⟩)], byAlturl := [("y", "x")] }
      ⟨"z", some "y", "Sky", none, none, "b"⟩ =
    some ({ byUrl := dictSet [("x", ⟨"x", some "y", "Sky", none, none, "a"⟩)] "z"
                       ⟨"z", some "y", "Sky", none, none, "b"⟩,
            byAlturl := [("y", "x")] },
          ⟨"z", some "y", "Sky", none, none, "b"⟩) :=
  c4_alias_conflict_amended _ _ "y" "x" (by decide) (by decide) (by decide) (by decide)

/-- Claim C2 is false on the code: when every attempt raises a connection
error, the retry wrapper performs its five attempts (with a 0.5 s sleep after
each) and then falls off the end of the for loop, RETURNING None normally
instead of propagating a fatal error. -/
theorem c2_retry_counterexample :
    retry5 (fun _ => AttemptResult.connError (α := Unit)) = (RetryOutcome.returned none, 5) ∧
    (RetryOutcome.returned (none : Option Unit)) ≠ RetryOutcome.raised := by
  constructor
  · decide
  · decide

/-- Claim C2 (corrected): the retry wrapper retries a connection-failing
operation a bounded number of times (five attempts) with a fixed backoff (one
0.5 s sleep after each connection error, counted in the second component), but
after exhausting the retries it returns None normally rather than propagating
the failure. -/
theorem c2_retry_amended {α : Type} (op : Nat → AttemptResult α)
    (h : ∀ i, i < 5 → op i = AttemptResult.connError) :
    retry5 op = (RetryOutcome.returned none, 5) := by
  have h0 := h 0 (by omega)
  have h1 := h 1 (by omega)
  have h2 := h 2 (by omega)
  have h3 := h 3 (by omega)
  have h4 := h 4 (by omega)
  simp [retry5, retryGo, h0, h1, h2, h3, h4]

theorem c2_retry_amended_witness :
    retry5 (fun i => if i = 9 then AttemptResult.success () else AttemptResult.connError) =
      (RetryOutcome.returned none, 5) :=
  c2_retry_amended _ (by decide)

/-- Claim C3 is false on the code: a ready scene item whose image URL has no
resolvable remote image ID is warned about (no crash), but the continue
statement also skips the append to new_items, so the item does NOT remain in
the handle's queue: by_handle[handle] is replaced with a list that no longer
contains it. -/
theorem c3_register_scene_counterexample :
    registerItems (fun _ => "cxid") (fun _ => "cxid")
      [("scene", [("place_uuid", "p1"), ("image_url", "u1")])] [] =
      { newItems := [], imgids := [], skippedScenes := ["p1"], registeredCount := 0 } ∧
    ("scene", [("place_uuid", "p1"), ("image_url", "u1")]) ∉
      (registerItems (fun _ => "cxid") (fun _ => "cxid")
        [("scene", [("place_uuid", "p1"), ("image_url", "u1")])] []).newItems := by
  constructor
  · decide
  · decide

/-- Claim C3 (corrected): a ready (non-wip) scene item whose image URL has no
resolvable remote image ID is skipped with a warning rather than a crash (its
place uuid is recorded among the warned-about skips, no registration happens,
and the imgids map is untouched), but the item is REMOVED from the handle's
queue rather than preserved, so it is not automatically retried on the next
run. -/
theorem c3_register_scene_amended (regImage regScene : PrepItem → String)
    (fields : List (String × String)) (rest : List PrepItem)
    (imgids : List (String × String))
    (h1 : dictGet fields "wip" = none)
    (h2 : dictGet imgids ((dictGet fields "image_url").getD "") = none) :
    registerItems regImage regScene (("scene", fields) :: rest) imgids =
      { registerItems regImage regScene rest imgids with
        skippedScenes :=
          ((dictGet fields "place_uuid").getD "") ::
            (registerItems regImage regScene rest imgids).skippedScenes } := by
  rw [registerItems]
  simp [h1, h2]

theorem c3_register_scene_amended_witness :
    registerItems (fun _ => "cxid") (fun _ => "cxid")
      [("scene", [("place_uuid", "p1"), ("image_url", "u1")])] [("u9", "id9")] =
      { registerItems (fun _ => "cxid") (fun _ => "cxid") ([] : List PrepItem) [("u9", "id9")] with
        skippedScenes :=
          "p1" :: (registerItems (fun _ => "cxid") (fun _ => "cxid")
            ([] : List PrepItem) [("u9", "id9")]).skippedScenes } :=
  c3_register_scene_amended _ _ _ _ _ (by decide) (by decide)

/-- Claim C5 concerns a code bug: during refresh, a candidate whose save()
raises the not-actionable error is removed from the candidates directory, but
the code then evaluates open(os.path.join(rej_dir, uniq_id, "wb")), passing
the intended mode "wb" as a path component and opening rejects/<id>/wb for
reading; in a working directory where that path does not exist this raises an
uncaught FileNotFoundError that aborts the whole scan (here before cand2 is
even examined), and nothing is recorded under the rejects directory. -/
theorem c5_refresh_reject_crash :
    refreshCandidates (fun _ => SaveOutcome.notActionable) "candidates" "rejects"
      ["cand1", "cand2"] [] =
      Except.error (IoError.fileNotFound "rejects/cand1/wb") := by
  rfl

/-- Claim C6 is false on the code as a statement about all three reference
kinds: a place whose image_set_url is absent from the imageset database fails
with the PLAIN not-found lookup error (naming only the URL), which is distinct
from the named dangling-reference error that the foreground lookup produces. -/
theorem c6_reconst_counterexample :
    PlaceDatabase.reconst_by_id
      { byUuid := [{ uuid := "p1", dataSetType := "Sky", name := "P", raHr := none,
                     decDeg := none, latitude := none, longitude := none,
                     constellation := none, imageSetUrl := some "u1",
                     foregroundImageSetUrl := none, backgroundImageSetUrl := none,
                     payload := "" }] }
      { byUrl := [], byAlturl := [] } "p1" =
      Except.error (ReconstErr.keyError "u1") ∧
    ReconstErr.keyError "u1" ≠ ReconstErr.fgNotFound "u1" "p1" := by
  constructor
  · rfl
  · decide

/-- Claim C6 (corrected): only the foreground_image_set_url lookup is wrapped:
when a persisted place references a foreground image URL absent from the
imageset database (and its background reference, which the source checks
first, is absent or resolvable - here absent), reconst_by_id fails with the
distinguishable dangling-reference error naming both the offending URL and the
place id; the image_set_url and background_image_set_url lookups instead
propagate a plain not-found error naming only the URL. -/
theorem c6_reconst_fg_dangling (pdb : PlaceDatabase) (idb : ImagesetDatabase)
    (pid u : String) (info : PlaceInfo)
    (hfind : pdb.byUuid.find? (fun i => i.uuid == pid) = some info)
    (hbg : info.backgroundImageSetUrl = none)
    (hfg : info.foregroundImageSetUrl = some u)
    (hmiss : dictGet idb.byUrl u = none) :
    PlaceDatabase.reconst_by_id pdb idb pid =
      Except.error (ReconstErr.fgNotFound u pid) := by
  unfold PlaceDatabase.reconst_by_id
  rw [hfind]
  simp [resolveRef, hbg, hfg, hmiss]

theorem c6_reconst_fg_dangling_witness :
    PlaceDatabase.reconst_by_id
      { byUuid := [{ uuid := "p1", dataSetType := "Sky", name := "P", raHr := none,
                     decDeg := none, latitude := none, longitude := none,
                     constellation := none, imageSetUrl := none,
                     foregroundImageSetUrl := some "u1", backgroundImageSetUrl := none,
                     payload := "" }] }
      { byUrl := [], byAlturl := [] } "p1" =
      Except.error (ReconstErr.fgNotFound "u1" "p1") :=
  c6_reconst_fg_dangling
    { byUuid := [{ uuid := "p1", dataSetType := "Sky", name := "P", raHr := none,
                   decDeg := none, latitude := none, longitude := none,
                   constellation := none, imageSetUrl := none,
                   foregroundImageSetUrl := some "u1", backgroundImageSetUrl := none,
                   payload := "" }] }
    { byUrl := [], byAlturl := [] } "p1" "u1"
    { uuid := "p1", dataSetType := "Sky", name := "P", raHr := none,
      decDeg := none, latitude := none, longitude := none,
      constellation := none, imageSetUrl := none,
      foregroundImageSetUrl := some "u1", backgroundImageSetUrl := none,
      payload := "" }
    (by decide) (by decide) (by decide) (by decide)

/-- Claim C10 (confirmed): process_todos rewrites the prep ledger from
scratch. After a successful run, prep.txt holds exactly one corepipe_image
item per cache_todo entry processed this run (in listing order), and the
result is independent of whatever prep.txt held before the run: any two
working directories with the same cache_todo listing end up with the same
prep.txt, whatever their prior ledgers contained. -/
theorem c10_process_todos_rewrites (cfg : PipeConfig) (ids : List String)
    (b : String → BuilderOut) (wd wdAlt : WorkDir)
    (h : wdAlt.cacheTodo = wd.cacheTodo) :
    (PipelineManager.process_todos cfg ids b wd).prepTxt =
      wd.cacheTodo.map (fun uid => ("corepipe_image", mkPrepFields cfg ids (b uid) uid)) ∧
    (PipelineManager.process_todos cfg ids b wd).prepTxt.length = wd.cacheTodo.length ∧
    (∀ it ∈ (PipelineManager.process_todos cfg ids b wd).prepTxt, it.1 = "corepipe_image") ∧
    (PipelineManager.process_todos cfg ids b wdAlt).prepTxt =
      (PipelineManager.process_todos cfg ids b wd).prepTxt := by
  refine ⟨rfl, by simp [PipelineManager.process_todos], ?_,
    by simp [PipelineManager.process_todos, h]⟩
  intro it hit
  simp only [PipelineManager.process_todos, List.mem_map] at hit
  obtain ⟨uid, _, rfl⟩ := hit
  rfl

theorem c10_process_todos_rewrites_witness :
    (PipelineManager.process_todos ⟨"h", "cat", "c", "l", none⟩ []
        (fun _ => ⟨"cu", "d", "cr"⟩)
        { cacheTodo := ["i1"], cacheDone := [], processedDirs := [],
          prepTxt := [("corepipe_image", [("corepipe_id", "old")])] }).prepTxt =
      ["i1"].map
        (fun uid =>
          ("corepipe_image", mkPrepFields ⟨"h", "cat", "c", "l", none⟩ []
            ⟨"cu", "d", "cr"⟩ uid)) ∧
    (PipelineManager.process_todos ⟨"h", "cat", "c", "l", none⟩ []
        (fun _ => ⟨"cu", "d", "cr"⟩)
        { cacheTodo := ["i1"], cacheDone := [], processedDirs := [],
          prepTxt := [("corepipe_image", [("corepipe_id", "old")])] }).prepTxt.length =
      (["i1"] : List String).length ∧
    (∀ it ∈ (PipelineManager.process_todos ⟨"h", "cat", "c", "l", none⟩ []
        (fun _ => ⟨"cu", "d", "cr"⟩)
        { cacheTodo := ["i1"], cacheDone := [], processedDirs := [],
          prepTxt := [("corepipe_image", [("corepipe_id", "old")])] }).prepTxt,
      it.1 = "corepipe_image") ∧
    (PipelineManager.process_todos ⟨"h", "cat", "c", "l", none⟩ []
        (fun _ => ⟨"cu", "d", "cr"⟩)
        { cacheTodo := ["i1"], cacheDone := ["z"], processedDirs := [], prepTxt := [] }).prepTxt =
      (PipelineManager.process_todos ⟨"h", "cat", "c", "l", none⟩ []
        (fun _ => ⟨"cu", "d", "cr"⟩)
        { cacheTodo := ["i1"], cacheDone := [], processedDirs := [],
          prepTxt := [("corepipe_image", [("corepipe_id", "old")])] }).prepTxt :=
  c10_process_todos_rewrites ⟨"h", "cat", "c", "l", none⟩ [] (fun _ => ⟨"cu", "d", "cr"⟩)
    { cacheTodo := ["i1"], cacheDone := [], processedDirs := [],
      prepTxt := [("corepipe_image", [("corepipe_id", "old")])] }
    { cacheTodo := ["i1"], cacheDone := ["z"], processedDirs := [], prepTxt := [] }
    (by decide)

/- Helper for claim C1: the finally block's ledger rebuild equals an order
preserving filter whenever every parsed item carries a corepipe_id field. -/
theorem uploadFinalPrep_eq_filter (items : List PrepItem) (completed : List String)
    (h : ∀ it ∈ items, (dictGet it.2 "corepipe_id").isSome = true) :
    uploadFinalPrep items completed =
      some (items.filter
        (fun it => !(completed.contains ((dictGet it.2 "corepipe_id").getD "")))) := by
  induction items with
  | nil => rfl
  | cons it rest ih =>
    have hit := h it (List.mem_cons_self it rest)
    obtain ⟨cid, hcid⟩ : ∃ c, dictGet it.2 "corepipe_id" = some c := by
      cases hx : dictGet it.2 "corepipe_id" with
      | none => rw [hx] at hit; simp at hit
      | some c => exact ⟨c, rfl⟩
    have ihr := ih (fun x hx => h x (List.mem_cons_of_mem it hx))
    rw [uploadFinalPrep, hcid, ihr]
    simp only [Option.map_some, Option.some.injEq, List.filter_cons, hcid, Option.getD_some]
    cases hc : completed.contains cid <;> simp [hc]

/-- Claim C1 (confirmed): however an upload() run ends - normally, or with an
exception aborting the per-item loop at any point (the outcome parameter
ranges over all such behaviors) - the finally block runs: the imageset and
place databases are rewritten, and the prep ledger is rewritten to exactly the
parsed items whose corepipe_id was not fully completed during the run, as an
order-preserving sublist of the original items; a second run therefore resumes
with only the uncompleted items. -/
theorem c1_upload_prep_flush (outcome : PrepItem → Bool) (items : List PrepItem)
    (h : ∀ it ∈ items, (dictGet it.2 "corepipe_id").isSome = true) :
    (PipelineManager.upload outcome items).newPrep =
      some (items.filter
        (fun it => !((PipelineManager.upload outcome items).completed.contains
            ((dictGet it.2 "corepipe_id").getD "")))) ∧
    (PipelineManager.upload outcome items).dbRewritten = true ∧
    ∀ l, (PipelineManager.upload outcome items).newPrep = some l → l.Sublist items := by
  have hfp := uploadFinalPrep_eq_filter items (uploadLoop outcome items []).1 h
  refine ⟨hfp, rfl, ?_⟩
  intro l hl
  have : (PipelineManager.upload outcome items).newPrep =
      uploadFinalPrep items (uploadLoop outcome items []).1 := rfl
  rw [this, hfp] at hl
  cases hl
  exact List.filter_sublist items

theorem c1_upload_prep_flush_witness :
    (PipelineManager.upload (fun _ => true)
        [("corepipe_image", [("corepipe_id", "a")]),
         ("corepipe_image", [("corepipe_id", "b"), ("wip", "yes")])]).newPrep =
      some ([("corepipe_image", [("corepipe_id", "a")]),
             ("corepipe_image", [("corepipe_id", "b"), ("wip", "yes")])].filter
        (fun it =>
          !((PipelineManager.upload (fun _ => true)
              [("corepipe_image", [("corepipe_id", "a")]),
               ("corepipe_image", [("corepipe_id", "b"), ("wip", "yes")])]).completed.contains
            ((dictGet it.2 "corepipe_id").getD "")))) ∧
    (PipelineManager.upload (fun _ => true)
        [("corepipe_image", [("corepipe_id", "a")]),
         ("corepipe_image", [("corepipe_id", "b"), ("wip", "yes")])]).dbRewritten = true ∧
    ∀ l, (PipelineManager.upload (fun _ => true)
        [("corepipe_image", [("corepipe_id", "a")]),
         ("corepipe_image", [("corepipe_id", "b"), ("wip", "yes")])]).newPrep = some l →
      l.Sublist [("corepipe_image", [("corepipe_id", "a")]),
                 ("corepipe_image", [("corepipe_id", "b"), ("wip", "yes")])] :=
  c1_upload_prep_flush (fun _ => true)
    [("corepipe_image", [("corepipe_id", "a")]),
     ("corepipe_image", [("corepipe_id", "b"), ("wip", "yes")])]
    (by decide)

/- Helper for claim C8: refreshing the cached constellation is idempotent,
because it reads only ra_hr and dec_deg, which it does not modify. -/
theorem updateConstellation_idem (c : Rat → Rat → String) (i : PlaceInfo) :
    updateConstellation c (updateConstellation c i) = updateConstellation c i := by
  unfold updateConstellation
  cases h : i.raHr with
  | none => simp [h]
  | some ra => simp [h]

/- Helper for claim C8: a second constellation-refresh pass over the in-memory
list changes nothing. -/
theorem map_updateConstellation_idem (c : Rat → Rat → String) (s : List PlaceInfo) :
    (s.map (updateConstellation c)).map (updateConstellation c) =
      s.map (updateConstellation c) := by
  induction s with
  | nil => rfl
  | cons i rest ih => simp [ih, updateConstellation_idem]

/-- Claim C8 (confirmed): rewrite() run twice in succession on an unchanged
in-memory record set produces byte-identical shard files, for both databases.
The imageset rewrite does not modify the in-memory state, so the second run
sees the same input; the place rewrite refreshes the cached constellations
in-memory during the first run, but that refresh is idempotent, so the second
run's shard files (shard-key grouping, within-shard sort and serialized
contents) coincide with the first run's. -/
theorem c8_rewrite_deterministic (idb : ImagesetDatabase) (pdb : PlaceDatabase)
    (constOf : Rat → Rat → String)
    (hwf : ∀ info ∈ pdb.byUuid, info.raHr.isSome = info.decDeg.isSome) :
    (ImagesetDatabase.rewrite (ImagesetDatabase.rewrite idb).2).1 =
      (ImagesetDatabase.rewrite idb).1 ∧
    (PlaceDatabase.rewrite constOf (PlaceDatabase.rewrite constOf pdb).2).1 =
      (PlaceDatabase.rewrite constOf pdb).1 := by
  constructor
  · rfl
  · simp only [PlaceDatabase.rewrite]
    rw [map_updateConstellation_idem]

theorem c8_rewrite_deterministic_witness :
    (ImagesetDatabase.rewrite
        (ImagesetDatabase.rewrite
          { byUrl := [("u1", ⟨"u1", none, "Sky", none, some "Visible", "a"⟩)],
            byAlturl := [] }).2).1 =
      (ImagesetDatabase.rewrite
        { byUrl := [("u1", ⟨"u1", none, "Sky", none, some "Visible", "a"⟩)],
          byAlturl := [] }).1 ∧
    (PlaceDatabase.rewrite (fun _ _ => "ori")
        (PlaceDatabase.rewrite (fun _ _ => "ori")
          { byUuid := [{ uuid := "p1", dataSetType := "Sky", name := "P", raHr := some 1,
                         decDeg := some 2, latitude := none, longitude := none,
                         constellation := none, imageSetUrl := none,
                         foregroundImageSetUrl := none, backgroundImageSetUrl := none,
                         payload := "" }] }).2).1 =
      (PlaceDatabase.rewrite (fun _ _ => "ori")
        { byUuid := [{ uuid := "p1", dataSetType := "Sky", name := "P", raHr := some 1,
                       decDeg := some 2, latitude := none, longitude := none,
                       constellation := none, imageSetUrl := none,
                       foregroundImageSetUrl := none, backgroundImageSetUrl := none,
                       payload := "" }] }).1 :=
  c8_rewrite_deterministic
    { byUrl := [("u1", ⟨"u1", none, "Sky", none, some "Visible", "a"⟩)], byAlturl := [] }
    { byUuid := [{ uuid := "p1", dataSetType := "Sky", name := "P", raHr := some 1,
                   decDeg := some 2, latitude := none, longitude := none,
                   constellation := none, imageSetUrl := none,
                   foregroundImageSetUrl := none, backgroundImageSetUrl := none,
                   payload := "" }] }
    (fun _ _ => "ori")
    (by decide)

/- Helper for claim C9: replacing the k-th element of a list by y and consing
the old k-th element in front is a permutation of consing y. -/
theorem getD_cons_set_perm {α : Type} (xs : List α) (k : Nat) (y d : α)
    (h : k < xs.length) :
    List.Perm (xs.getD k d :: xs.set k y) (y :: xs) := by
  induction xs generalizing k with
  | nil => exact absurd h (Nat.not_lt_zero k)
  | cons z zs ih =>
    cases k with
    | zero => exact List.Perm.swap y z zs
    | succ m =>
      have hm : m < zs.length := Nat.lt_of_succ_lt_succ h
      have h1 : List.Perm (zs.getD m d :: z :: zs.set m y) (z :: zs.getD m d :: zs.set m y) :=
        List.Perm.swap z (zs.getD m d) (zs.set m y)
      have h2 : List.Perm (z :: zs.getD m d :: zs.set m y) (z :: y :: zs) :=
        (ih m hm).cons z
      have h3 : List.Perm (z :: y :: zs) (y :: z :: zs) := List.Perm.swap y z zs
      exact h1.trans (h2.trans h3)

/- Helper for claim C9: writing element i into slot j and element j into slot
i permutes the list (this is the in-place swap performed on the filenames
list). -/
theorem set_set_perm {α : Type} (l : List α) (i j : Nat) (d : α)
    (hi : i < l.length) (hj : j < l.length) :
    List.Perm ((l.set j (l.getD i d)).set i (l.getD j d)) l := by
  induction l generalizing i j with
  | nil => exact absurd hi (Nat.not_lt_zero i)
  | cons x xs ih =>
    cases i with
    | zero =>
      cases j with
      | zero => exact List.Perm.refl _
      | succ m =>
        have hm : m < xs.length := Nat.lt_of_succ_lt_succ hj
        exact getD_cons_set_perm xs m x d hm
    | succ k =>
      cases j with
      | zero =>
        have hk : k < xs.length := Nat.lt_of_succ_lt_succ hi
        exact getD_cons_set_perm xs k x d hk
      | succ m =>
        have hk : k < xs.length := Nat.lt_of_succ_lt_succ hi
        have hm : m < xs.length := Nat.lt_of_succ_lt_succ hj
        exact (ih k m hk hm).cons x

/-- Claim C9 (confirmed): when the directory listing of a not-yet-uploaded
item contains index.wtml, the sequence of files pushed to the storage backend
is a permutation of the listing (every file uploaded exactly once) whose last
element is index.wtml (the index document is uploaded last). -/
theorem c9_upload_index_last (filenames : List String)
    (h : "index.wtml" ∈ filenames) :
    List.Perm (uploadFilenames filenames) filenames ∧
    (uploadFilenames filenames).getLast? = some "index.wtml" := by
  have hi : filenames.indexOf "index.wtml" < filenames.length :=
    List.indexOf_lt_length.mpr h
  have hlast : filenames.length - 1 < filenames.length := by omega
  have hgi : filenames.getD (filenames.indexOf "index.wtml") "" = "index.wtml" := by
    rw [List.getD_eq_getElem _ _ hi]
    exact List.getElem_indexOf hi
  have huf : uploadFilenames filenames =
      (filenames.set (filenames.length - 1) "index.wtml").set
        (filenames.indexOf "index.wtml") (filenames.getD (filenames.length - 1) "") := by
    unfold uploadFilenames
    rw [if_pos h]
  constructor
  · rw [huf]
    have hp := set_set_perm filenames (filenames.indexOf "index.wtml")
      (filenames.length - 1) "" hi hlast
    rwa [hgi] at hp
  · rw [huf]
    have hlen : ((filenames.set (filenames.length - 1) "index.wtml").set
        (filenames.indexOf "index.wtml")
        (filenames.getD (filenames.length - 1) "")).length = filenames.length := by
      simp
    rw [List.getLast?_eq_getElem? _, hlen]
    by_cases hc : filenames.indexOf "index.wtml" = filenames.length - 1
    · have htemp : filenames.getD (filenames.length - 1) "" = "index.wtml" := by
        rw [← hc]; exact hgi
      rw [htemp, ← hc]
      simp [List.getElem?_set_self', List.getElem?_eq_getElem, hi]
    · rw [List.getElem?_set_ne hc]
      simp [List.getElem?_set_self', List.getElem?_eq_getElem, hlast]

theorem c9_upload_index_last_witness :
    List.Perm (uploadFilenames ["0.png", "index.wtml", "thumb.jpg"])
      ["0.png", "index.wtml", "thumb.jpg"] ∧
    (uploadFilenames ["0.png", "index.wtml", "thumb.jpg"]).getLast? = some "index.wtml" :=
  c9_upload_index_last ["0.png", "index.wtml", "thumb.jpg"] (by decide)
